import Mathlib

/-!
Verification of the WCAG contrast / color-vision-deficiency pipeline of the
accessibility-standards-unity repository.

The embedding follows the two Python modules
`automation/quick_wins/color_contrast_analyzer.py` (class
`ColorContrastAnalyzer`) and `automation/quick_wins/colorblind_simulator.py`
(class `ColorBlindSimulator`).  Exact real/rational arithmetic stands in for
Python floats: the contrast calculator (which uses the transcendental power
`** 2.4`) is modelled over `ℝ`, the colorblind simulator (which only uses
field operations, clipping and truncation) over `ℚ`.
-/

/-- An RGB color: a triple of 8-bit channel intensities.  The Python code
passes colors around as `(r, g, b)` tuples of ints. -/
structure Color where
  r : ℕ
  g : ℕ
  b : ℕ
deriving DecidableEq, Repr

/-- The caller contract on colors: every channel lies in 0..255. -/
def Color.valid (c : Color) : Prop := c.r ≤ 255 ∧ c.g ≤ 255 ∧ c.b ≤ 255

instance (c : Color) : Decidable c.valid := by
  unfold Color.valid
  infer_instance

namespace ColorContrastAnalyzer

/-- One channel of `ColorContrastAnalyzer.relative_luminance`:
`r = r / 12.92 if r <= 0.03928 else ((r + 0.055) / 1.055) ** 2.4`. -/
noncomputable def linearize (c : ℝ) : ℝ :=
  if c ≤ 0.03928 then c / 12.92 else ((c + 0.055) / 1.055) ^ (2.4 : ℝ)

/-- `ColorContrastAnalyzer.relative_luminance`: normalize each channel by 255,
linearize it, and combine with the WCAG coefficients. -/
noncomputable def relative_luminance (c : Color) : ℝ :=
  0.2126 * linearize ((c.r : ℝ) / 255)
    + 0.7152 * linearize ((c.g : ℝ) / 255)
    + 0.0722 * linearize ((c.b : ℝ) / 255)

/-- `ColorContrastAnalyzer.calculate_contrast_ratio`:
`(lighter + 0.05) / (darker + 0.05)` where lighter/darker are the max/min of
the two relative luminances. -/
noncomputable def calculate_contrast_ratio (color1 color2 : Color) : ℝ :=
  (max (relative_luminance color1) (relative_luminance color2) + 0.05)
    / (min (relative_luminance color1) (relative_luminance color2) + 0.05)

/-! Basic bounds on the luminance pipeline. -/

theorem linearize_nonneg {c : ℝ} (hc : 0 ≤ c) : 0 ≤ linearize c := by
  unfold linearize
  split_ifs with h
  · positivity
  · exact Real.rpow_nonneg (by positivity) _

theorem linearize_le_one {c : ℝ} (hc0 : 0 ≤ c) (hc1 : c ≤ 1) : linearize c ≤ 1 := by
  unfold linearize
  split_ifs with h
  · rw [div_le_one (by norm_num)]
    linarith
  · apply Real.rpow_le_one (by positivity)
    · rw [div_le_one (by norm_num)]
      linarith
    · norm_num

theorem relative_luminance_nonneg (c : Color) : 0 ≤ relative_luminance c := by
  unfold relative_luminance
  have h1 := linearize_nonneg (c := (c.r : ℝ) / 255) (by positivity)
  have h2 := linearize_nonneg (c := (c.g : ℝ) / 255) (by positivity)
  have h3 := linearize_nonneg (c := (c.b : ℝ) / 255) (by positivity)
  linarith

theorem relative_luminance_le_one {c : Color} (hc : c.valid) :
    relative_luminance c ≤ 1 := by
  obtain ⟨hr, hg, hb⟩ := hc
  unfold relative_luminance
  have br : ((c.r : ℝ) / 255) ≤ 1 := by
    rw [div_le_one (by norm_num)]
    exact_mod_cast hr
  have bg : ((c.g : ℝ) / 255) ≤ 1 := by
    rw [div_le_one (by norm_num)]
    exact_mod_cast hg
  have bb : ((c.b : ℝ) / 255) ≤ 1 := by
    rw [div_le_one (by norm_num)]
    exact_mod_cast hb
  have h1 := linearize_le_one (c := (c.r : ℝ) / 255) (by positivity) br
  have h2 := linearize_le_one (c := (c.g : ℝ) / 255) (by positivity) bg
  have h3 := linearize_le_one (c := (c.b : ℝ) / 255) (by positivity) bb
  linarith

/-- Claim C7: for every pair of RGB colors a and b, `calculate_contrast_ratio`
is symmetric: `calculate_contrast_ratio a b = calculate_contrast_ratio b a`. -/
theorem calculate_contrast_ratio_symm (a b : Color) :
    calculate_contrast_ratio a b = calculate_contrast_ratio b a := by
  unfold calculate_contrast_ratio
  rw [max_comm, min_comm]

/-- Claim C8: for every RGB color c, `calculate_contrast_ratio c c = 1`. -/
theorem calculate_contrast_ratio_self (c : Color) :
    calculate_contrast_ratio c c = 1 := by
  unfold calculate_contrast_ratio
  rw [max_self, min_self]
  exact div_self (by have := relative_luminance_nonneg c; linarith)

/-- Claim C3: for every pair of RGB colors with all channels in 0..255, the
contrast ratio lies between 1 and 21 (the function itself is a total Lean
function, mirroring the absence of any error branch in the source). -/
theorem calculate_contrast_ratio_bounds (c1 c2 : Color)
    (h1 : c1.valid) (h2 : c2.valid) :
    1 ≤ calculate_contrast_ratio c1 c2 ∧ calculate_contrast_ratio c1 c2 ≤ 21 := by
  unfold calculate_contrast_ratio
  have l1n := relative_luminance_nonneg c1
  have l2n := relative_luminance_nonneg c2
  have l11 := relative_luminance_le_one h1
  have l21 := relative_luminance_le_one h2
  set a := relative_luminance c1
  set b := relative_luminance c2
  have hmin : (0 : ℝ) ≤ min a b := le_min l1n l2n
  have hmax : max a b ≤ 1 := max_le l11 l21
  have hml : min a b ≤ max a b := min_le_max
  have hden : (0 : ℝ) < min a b + 0.05 := by linarith
  constructor
  · rw [le_div_iff hden]
    linarith
  · rw [div_le_iff hden]
    linarith

/-- Witness for `calculate_contrast_ratio_bounds` at black vs white. -/
theorem calculate_contrast_ratio_bounds_witness :
    Color.valid ⟨0, 0, 0⟩ ∧ Color.valid ⟨255, 255, 255⟩ ∧
      (1 ≤ calculate_contrast_ratio ⟨0, 0, 0⟩ ⟨255, 255, 255⟩ ∧
        calculate_contrast_ratio ⟨0, 0, 0⟩ ⟨255, 255, 255⟩ ≤ 21) :=
  ⟨by decide, by decide,
    calculate_contrast_ratio_bounds ⟨0, 0, 0⟩ ⟨255, 255, 255⟩ (by decide) (by decide)⟩

/-! The WCAG 2.1 algorithm as stated in the specification, written from the
spec's words for comparison with the source embedding (refinement claim C1). -/

/-- Modelled from the spec: "Linearize: if c ≤ 0.03928, c_lin = c/12.92;
else c_lin = ((c+0.055)/1.055)^2.4." -/
noncomputable def wcag_linearize (c : ℝ) : ℝ :=
  if c ≤ 0.03928 then c / 12.92 else ((c + 0.055) / 1.055) ^ (2.4 : ℝ)

/-- Modelled from the spec: "For each channel value v (0–255), normalize
c = v/255" and "Relative luminance L = 0.2126·R_lin + 0.7152·G_lin +
0.0722·B_lin." -/
noncomputable def wcag_relative_luminance (c : Color) : ℝ :=
  0.2126 * wcag_linearize ((c.r : ℝ) / 255)
    + 0.7152 * wcag_linearize ((c.g : ℝ) / 255)
    + 0.0722 * wcag_linearize ((c.b : ℝ) / 255)

/-- Modelled from the spec: "Contrast ratio = (L_lighter + 0.05) /
(L_darker + 0.05), where L_lighter = max(L1, L2), L_darker = min(L1, L2)." -/
noncomputable def wcag_contrast_ratio (c1 c2 : Color) : ℝ :=
  (max (wcag_relative_luminance c1) (wcag_relative_luminance c2) + 0.05)
    / (min (wcag_relative_luminance c1) (wcag_relative_luminance c2) + 0.05)

/-- Claim C1: for every RGB color pair with channels in 0..255, the source's
`calculate_contrast_ratio` follows the WCAG 2.1 algorithm of the spec
exactly (the equality in fact holds for all channel values). -/
theorem calculate_contrast_ratio_matches_wcag (c1 c2 : Color)
    (h1 : c1.valid) (h2 : c2.valid) :
    calculate_contrast_ratio c1 c2 = wcag_contrast_ratio c1 c2 := rfl

/-- Witness for `calculate_contrast_ratio_matches_wcag`. -/
theorem calculate_contrast_ratio_matches_wcag_witness :
    Color.valid ⟨10, 20, 30⟩ ∧ Color.valid ⟨200, 100, 0⟩ ∧
      calculate_contrast_ratio ⟨10, 20, 30⟩ ⟨200, 100, 0⟩
        = wcag_contrast_ratio ⟨10, 20, 30⟩ ⟨200, 100, 0⟩ :=
  ⟨by decide, by decide,
    calculate_contrast_ratio_matches_wcag ⟨10, 20, 30⟩ ⟨200, 100, 0⟩ (by decide) (by decide)⟩

/-! The threshold logic of `ColorContrastAnalyzer.check_text_contrast`
(claim C2).  The code that feeds it: `estimate_font_size` turns a bounding-box
pixel height into points. -/

/-- `ColorContrastAnalyzer.estimate_font_size`: `estimated_pt = height_px * 0.75`. -/
def estimate_font_size (height_px : ℕ) : ℚ := (height_px : ℚ) * 0.75

/-- The `is_large_text` flag of `check_text_contrast`:
`estimated_font_size >= 18 or estimated_font_size >= 14  # Assume bold for now`. -/
def is_large_text (height_px : ℕ) : Bool :=
  if 18 ≤ estimate_font_size height_px ∨ 14 ≤ estimate_font_size height_px
  then true else false

/-- The `required_ratio` selected by `check_text_contrast`:
`3.0 if is_large_text else 4.5`. -/
def required_ratio (height_px : ℕ) : ℚ :=
  if is_large_text height_px then 3 else 4.5

/-- The `passes` flag of `check_text_contrast`: `ratio >= required_ratio`. -/
def check_text_contrast_passes (fg bg : Color) (height_px : ℕ) : Prop :=
  (required_ratio height_px : ℝ) ≤ calculate_contrast_ratio fg bg

/-- Modelled from the spec: the threshold the claim describes, in which 14pt
text only counts as large when it is bold ("3:1 for large text (≥18pt, or
≥14pt bold)").  The code has no bold information, so this takes the bold flag
as an extra argument. -/
def claim_required_ratio (height_px : ℕ) (bold : Bool) : ℚ :=
  if 18 ≤ estimate_font_size height_px ∨
      (bold = true ∧ 14 ≤ estimate_font_size height_px)
  then 3 else 4.5

/-- Counterexample to claim C2: a text region of pixel height 20 has
estimated font size 15pt; the code selects the 3.0 threshold for it, while
the claim's rule demands 4.5 unless the text is bold — and the code never
checks boldness. -/
theorem required_ratio_bold_counterexample :
    estimate_font_size 20 = 15 ∧ required_ratio 20 = 3 ∧
      claim_required_ratio 20 false = 4.5 := by
  refine ⟨by norm_num [estimate_font_size], ?_, ?_⟩
  · simp only [required_ratio, is_large_text, estimate_font_size]
    norm_num
  · simp only [claim_required_ratio, estimate_font_size]
    norm_num

/-- Claim C2 amended: `check_text_contrast` applies threshold 3.0 exactly when
the estimated font size is at least 14pt (the code assumes every text region
is bold), 4.5 otherwise, and the check passes iff the computed ratio is at
least the selected threshold. -/
theorem check_text_contrast_threshold (height_px : ℕ) (fg bg : Color) :
    required_ratio height_px
        = (if 14 ≤ estimate_font_size height_px then 3 else 4.5) ∧
      (check_text_contrast_passes fg bg height_px ↔
        (required_ratio height_px : ℝ) ≤ calculate_contrast_ratio fg bg) := by
  constructor
  · by_cases h : 14 ≤ estimate_font_size height_px
    · simp [required_ratio, is_large_text, h]
    · have h18 : ¬ 18 ≤ estimate_font_size height_px := fun hh => h (by linarith)
      simp [required_ratio, is_large_text, h, h18]
  · exact Iff.rfl

/-! Report summaries (claims C10 and C4).  `analyze_screenshot` ends by
building a per-screenshot summary from the lists `result['passed']` and
`result['issues']`; `get_summary` aggregates the stored summaries;
`main` exits with `0 if summary['wcag_compliant'] else 1`. -/

/-- The per-screenshot summary dict built at the end of
`ColorContrastAnalyzer.analyze_screenshot`, as a function of the number of
passed checks (`len(result['passed'])`) and failed checks
(`len(result['issues'])`). -/
structure ScreenshotSummary where
  total_checks : ℕ
  passed : ℕ
  failed : ℕ
  pass_rate : ℚ
  wcag_compliant : Bool
deriving DecidableEq, Repr

/-- `result['summary']` as computed by `analyze_screenshot`:
`total_checks = len(issues) + len(passed)`, `pass_rate = passed/total*100` when
`total_checks > 0` else 0, `wcag_compliant = len(issues) == 0`. -/
def analyze_screenshot_summary (passed failed : ℕ) : ScreenshotSummary :=
  { total_checks := failed + passed
    passed := passed
    failed := failed
    pass_rate :=
      if 0 < failed + passed
      then (passed : ℚ) / ((failed + passed : ℕ) : ℚ) * 100 else 0
    wcag_compliant := failed == 0 }

/-- The aggregate summary dict returned by `ColorContrastAnalyzer.get_summary`. -/
structure OverallSummary where
  screenshots_analyzed : ℕ
  total_checks : ℕ
  total_passed : ℕ
  total_failed : ℕ
  overall_pass_rate : ℚ
  wcag_compliant : Bool
deriving DecidableEq, Repr

/-- `ColorContrastAnalyzer.get_summary`: all-zero / non-compliant when
`contrast_results` is empty, otherwise sums of the stored per-screenshot
summary fields, with `wcag_compliant = total_failed == 0`. -/
def get_summary (contrast_results : List ScreenshotSummary) : OverallSummary :=
  if contrast_results.isEmpty then
    { screenshots_analyzed := 0
      total_checks := 0
      total_passed := 0
      total_failed := 0
      overall_pass_rate := 0
      wcag_compliant := false }
  else
    { screenshots_analyzed := contrast_results.length
      total_checks := (contrast_results.map (·.total_checks)).sum
      total_passed := (contrast_results.map (·.passed)).sum
      total_failed := (contrast_results.map (·.failed)).sum
      overall_pass_rate :=
        if 0 < (contrast_results.map (·.total_checks)).sum
        then ((contrast_results.map (·.passed)).sum : ℚ)
          / (((contrast_results.map (·.total_checks)).sum : ℕ) : ℚ) * 100
        else 0
      wcag_compliant := (contrast_results.map (·.failed)).sum == 0 }

theorem sum_total_eq_sum_passed_add_sum_failed (rs : List ScreenshotSummary)
    (h : ∀ s ∈ rs, s.total_checks = s.passed + s.failed) :
    (rs.map (·.total_checks)).sum = (rs.map (·.passed)).sum + (rs.map (·.failed)).sum := by
  induction rs with
  | nil => rfl
  | cons s t ih =>
    have hs := h s (List.mem_cons_self s t)
    have ht := ih (fun x hx => h x (List.mem_cons_of_mem s hx))
    simp only [List.map_cons, List.sum_cons, hs, ht]
    omega

/-- Claim C10: every per-screenshot summary and every aggregate summary
satisfies `total_checks = passed + failed`,
`pass_rate = passed/total_checks*100` when `total_checks > 0` and 0 otherwise,
and `wcag_compliant` holds iff no check failed and at least one screenshot
was analyzed (for a per-screenshot summary the screenshot being analyzed is
the one at hand, so the second condition is vacuous there). -/
theorem summary_invariants (p f : ℕ) (rs : List ScreenshotSummary)
    (hrs : ∀ s ∈ rs, ∃ p' f', s = analyze_screenshot_summary p' f') :
    ((analyze_screenshot_summary p f).total_checks
        = (analyze_screenshot_summary p f).passed + (analyze_screenshot_summary p f).failed
      ∧ (analyze_screenshot_summary p f).pass_rate
        = (if 0 < (analyze_screenshot_summary p f).total_checks
           then ((analyze_screenshot_summary p f).passed : ℚ)
             / ((analyze_screenshot_summary p f).total_checks : ℚ) * 100 else 0)
      ∧ ((analyze_screenshot_summary p f).wcag_compliant = true
          ↔ (analyze_screenshot_summary p f).failed = 0))
    ∧ ((get_summary rs).total_checks
        = (get_summary rs).total_passed + (get_summary rs).total_failed
      ∧ (get_summary rs).overall_pass_rate
        = (if 0 < (get_summary rs).total_checks
           then ((get_summary rs).total_passed : ℚ)
             / ((get_summary rs).total_checks : ℚ) * 100 else 0)
      ∧ ((get_summary rs).wcag_compliant = true
          ↔ (rs ≠ [] ∧ (get_summary rs).total_failed = 0))) := by
  have hfields : ∀ s ∈ rs, s.total_checks = s.passed + s.failed := by
    intro s hs
    obtain ⟨p', f', rfl⟩ := hrs s hs
    simp [analyze_screenshot_summary, Nat.add_comm]
  refine ⟨⟨by simp [analyze_screenshot_summary, Nat.add_comm], rfl, ?_⟩, ?_⟩
  · simp [analyze_screenshot_summary]
  · have hsum := sum_total_eq_sum_passed_add_sum_failed rs hfields
    cases rs with
    | nil =>
      refine ⟨rfl, rfl, ?_⟩
      simp [get_summary]
    | cons s t =>
      refine ⟨hsum, ?_, ?_⟩
      · simp [get_summary, Function.comp_def]
      · simp [get_summary]

/-- Witness for `summary_invariants` at one passed check, one failed overall. -/
theorem summary_invariants_witness :
    (get_summary [analyze_screenshot_summary 2 1]).total_checks
      = (get_summary [analyze_screenshot_summary 2 1]).total_passed
        + (get_summary [analyze_screenshot_summary 2 1]).total_failed :=
  ((summary_invariants 1 0 [analyze_screenshot_summary 2 1]
    (by intro s hs
        rw [List.mem_singleton] at hs
        exact ⟨2, 1, hs⟩)).2).1

/-- The exit-code decision of `main`: each screenshot analysis either fails
with a recovered error (`none`, nothing appended to `contrast_results`) or
yields a per-screenshot summary counted from its (passed, failed) checks;
`main` then exits `0 if get_summary()['wcag_compliant'] else 1`. -/
def main_exit_code (outcomes : List (Option (ℕ × ℕ))) : ℕ :=
  if (get_summary (outcomes.filterMap
      (fun o => o.map (fun pf => analyze_screenshot_summary pf.1 pf.2)))).wcag_compliant
  then 0 else 1

theorem nat_list_sum_eq_zero_iff (l : List ℕ) : l.sum = 0 ↔ ∀ x ∈ l, x = 0 := by
  induction l with
  | nil => simp
  | cons a t ih => simp [Nat.add_eq_zero, ih]

/-- Counterexample to claim C4: a run whose first screenshot hits a recovered
I/O error (`none`) and whose second screenshot passes its single check exits
with code 0, although an I/O error occurred — the claim demands a non-zero
exit code for any run with an I/O error. -/
theorem main_exit_code_io_error_counterexample :
    main_exit_code [none, some (1, 0)] = 0
      ∧ (none : Option (ℕ × ℕ)) ∈ [none, some (1, 0)] := by
  constructor
  · rfl
  · simp

theorem filterMap_map_eq_map_filterMap (outcomes : List (Option (ℕ × ℕ))) :
    outcomes.filterMap (fun o => o.map (fun pf => analyze_screenshot_summary pf.1 pf.2))
      = (outcomes.filterMap id).map (fun pf => analyze_screenshot_summary pf.1 pf.2) := by
  induction outcomes with
  | nil => rfl
  | cons o t ih => cases o <;> simp [List.filterMap_cons, ih]

/-- Claim C4 amended: the CLI exits non-zero iff some performed check failed
or no screenshot produced a result at all (which covers both "no input images
found" and the case where every image hit a recovered error); a per-image
I/O error that is recovered while other screenshots pass does not make the
exit code non-zero. -/
theorem main_exit_code_spec (outcomes : List (Option (ℕ × ℕ))) :
    main_exit_code outcomes ≠ 0
      ↔ ((∃ pf ∈ outcomes.filterMap id, 0 < pf.2) ∨ outcomes.filterMap id = []) := by
  unfold main_exit_code
  rw [filterMap_map_eq_map_filterMap]
  cases h : outcomes.filterMap id with
  | nil => simp [get_summary]
  | cons pf t =>
    have hwcag : (get_summary ((pf :: t).map
          (fun pf => analyze_screenshot_summary pf.1 pf.2))).wcag_compliant
        = ((((pf :: t).map (fun pf => analyze_screenshot_summary pf.1 pf.2)).map
            (·.failed)).sum == 0) := rfl
    have hfail : ((pf :: t).map (fun pf => analyze_screenshot_summary pf.1 pf.2)).map
        (·.failed) = (pf :: t).map (·.2) := by
      rw [List.map_map]
      simp [Function.comp_def, analyze_screenshot_summary]
    rw [hwcag, hfail]
    constructor
    · intro hz
      left
      by_contra hall
      push_neg at hall
      have hzero : ((pf :: t).map (·.2)).sum = 0 := by
        rw [nat_list_sum_eq_zero_iff]
        intro x hx
        obtain ⟨y, hy, rfl⟩ := List.mem_map.mp hx
        exact Nat.le_antisymm (hall y hy) (Nat.zero_le _)
      exact hz (by rw [if_pos (by rw [beq_iff_eq]; exact hzero)])
    · rintro (⟨q, hq, hqpos⟩ | habs)
      · rw [if_neg]
        · exact one_ne_zero
        · intro hc
          rw [beq_iff_eq] at hc
          have := (nat_list_sum_eq_zero_iff _).mp hc q.2 (List.mem_map.mpr ⟨q, hq, rfl⟩)
          omega
      · exact absurd habs (List.cons_ne_nil pf t)

end ColorContrastAnalyzer

namespace ColorBlindSimulator

/-- One entry of `ColorBlindSimulator.TRANSFORMATIONS`: a display name, a
severity tag, and a fixed 3×3 matrix (row-major entries). -/
structure CVDTransformation where
  name : String
  severity : String
  m00 : ℚ
  m01 : ℚ
  m02 : ℚ
  m10 : ℚ
  m11 : ℚ
  m12 : ℚ
  m20 : ℚ
  m21 : ℚ
  m22 : ℚ
deriving DecidableEq, Repr

def protanopia : CVDTransformation :=
  { name := "Protanopia (Red-blind)", severity := "complete"
    m00 := 0.567, m01 := 0.433, m02 := 0
    m10 := 0.558, m11 := 0.442, m12 := 0
    m20 := 0, m21 := 0.242, m22 := 0.758 }

def deuteranopia : CVDTransformation :=
  { name := "Deuteranopia (Green-blind)", severity := "complete"
    m00 := 0.625, m01 := 0.375, m02 := 0
    m10 := 0.7, m11 := 0.3, m12 := 0
    m20 := 0, m21 := 0.3, m22 := 0.7 }

def tritanopia : CVDTransformation :=
  { name := "Tritanopia (Blue-blind)", severity := "complete"
    m00 := 0.95, m01 := 0.05, m02 := 0
    m10 := 0, m11 := 0.433, m12 := 0.567
    m20 := 0, m21 := 0.475, m22 := 0.525 }

def protanomaly : CVDTransformation :=
  { name := "Protanomaly (Red-weak)", severity := "partial"
    m00 := 0.817, m01 := 0.183, m02 := 0
    m10 := 0.333, m11 := 0.667, m12 := 0
    m20 := 0, m21 := 0.125, m22 := 0.875 }

def deuteranomaly : CVDTransformation :=
  { name := "Deuteranomaly (Green-weak)", severity := "partial"
    m00 := 0.8, m01 := 0.2, m02 := 0
    m10 := 0.258, m11 := 0.742, m12 := 0
    m20 := 0, m21 := 0.142, m22 := 0.858 }

def tritanomaly : CVDTransformation :=
  { name := "Tritanomaly (Blue-weak)", severity := "partial"
    m00 := 0.967, m01 := 0.033, m02 := 0
    m10 := 0, m11 := 0.733, m12 := 0.267
    m20 := 0, m21 := 0.183, m22 := 0.817 }

def achromatopsia : CVDTransformation :=
  { name := "Achromatopsia (Total color blindness)", severity := "complete"
    m00 := 0.299, m01 := 0.587, m02 := 0.114
    m10 := 0.299, m11 := 0.587, m12 := 0.114
    m20 := 0.299, m21 := 0.587, m22 := 0.114 }

def achromatomaly : CVDTransformation :=
  { name := "Achromatomaly (Blue cone monochromacy)", severity := "complete"
    m00 := 0.618, m01 := 0.320, m02 := 0.062
    m10 := 0.163, m11 := 0.775, m12 := 0.062
    m20 := 0.163, m21 := 0.320, m22 := 0.516 }

/-- `ColorBlindSimulator.TRANSFORMATIONS`: the dict of the 8 CVD variants,
keyed by their identifier. -/
def TRANSFORMATIONS : List (String × CVDTransformation) :=
  [("protanopia", protanopia), ("deuteranopia", deuteranopia),
   ("tritanopia", tritanopia), ("protanomaly", protanomaly),
   ("deuteranomaly", deuteranomaly), ("tritanomaly", tritanomaly),
   ("achromatopsia", achromatopsia), ("achromatomaly", achromatomaly)]

/-- The keys of `TRANSFORMATIONS` (what `cvd_type not in self.TRANSFORMATIONS`
tests against). -/
def cvd_keys : List String := TRANSFORMATIONS.map Prod.fst

/-- `np.clip(x, 0, 1)` on one value. -/
def clip01 (x : ℚ) : ℚ := min (max x 0) 1

/-- The per-pixel body of `simulate_colorblindness`: normalize by 255, apply
`np.dot(pixels, matrix.T)` (so output channel j is row j of the matrix dotted
with the pixel), clip to `[0, 1]`, rescale by 255, and truncate to `uint8`
(`astype(np.uint8)`; the value is nonnegative, so truncation is the floor). -/
def simulate_pixel (t : CVDTransformation) (p : Color) : Color :=
  let r : ℚ := (p.r : ℚ) / 255
  let g : ℚ := (p.g : ℚ) / 255
  let b : ℚ := (p.b : ℚ) / 255
  { r := (⌊clip01 (t.m00 * r + t.m01 * g + t.m02 * b) * 255⌋).toNat
    g := (⌊clip01 (t.m10 * r + t.m11 * g + t.m12 * b) * 255⌋).toNat
    b := (⌊clip01 (t.m20 * r + t.m21 * g + t.m22 * b) * 255⌋).toNat }

/-- The whole-image transform of `simulate_colorblindness`: the per-pixel map
applied to every pixel (there is no spatial dependency). -/
def simulate_image (t : CVDTransformation) (img : List Color) : List Color :=
  img.map (simulate_pixel t)

/-- `ColorBlindSimulator.simulate_colorblindness`: raises `ValueError` when
`cvd_type` is not a key of `TRANSFORMATIONS` — before the image is opened —
and otherwise transforms the image (the `load` argument stands for the result
of `Image.open`: `none` models the recovered load-failure branch, which
returns `None`). -/
def simulate_colorblindness (cvd_type : String) (load : Option (List Color)) :
    Except String (Option (List Color)) :=
  match TRANSFORMATIONS.find? (fun kt => kt.1 == cvd_type) with
  | none => Except.error ("Unknown CVD type: " ++ cvd_type)
  | some kt => Except.ok (load.map (simulate_image kt.2))

theorem clip01_nonneg (x : ℚ) : 0 ≤ clip01 x :=
  le_min (le_max_right x 0) (by norm_num)

theorem clip01_le_one (x : ℚ) : clip01 x ≤ 1 := min_le_right _ 1

theorem floor_clip_le_255 (x : ℚ) : (⌊clip01 x * 255⌋).toNat ≤ 255 := by
  rw [Int.toNat_le]
  have h : clip01 x * 255 ≤ ((255 : ℤ) : ℚ) := by
    have h1 := clip01_le_one x
    push_cast
    linarith
  have h2 := Int.floor_mono h
  rw [Int.floor_intCast] at h2
  exact_mod_cast h2

/-- Claim C5: for every input image and every variant listed in
`TRANSFORMATIONS`, `simulate_colorblindness` clamps the matrix product to
`[0, 1]` before rescaling, so every channel of every output pixel lies in
0..255 (the lower bound holds by the `ℕ`-valued channel type). -/
theorem simulate_colorblindness_output_range (key : String) (t : CVDTransformation)
    (ht : (key, t) ∈ TRANSFORMATIONS) (img : List Color) :
    ∀ p ∈ simulate_image t img, p.valid := by
  intro p hp
  obtain ⟨q, _, rfl⟩ := List.mem_map.mp hp
  exact ⟨floor_clip_le_255 _, floor_clip_le_255 _, floor_clip_le_255 _⟩

/-- Witness for `simulate_colorblindness_output_range`: the protanopia
transform of a one-pixel image (with an out-of-range input channel, which the
clamp still handles). -/
theorem simulate_colorblindness_output_range_witness :
    Color.valid (simulate_pixel protanopia ⟨300, 0, 12⟩) :=
  simulate_colorblindness_output_range "protanopia" protanopia
    (List.Mem.head _) [⟨300, 0, 12⟩] (simulate_pixel protanopia ⟨300, 0, 12⟩)
    (List.Mem.head _)

/-- Claim C6: the achromatopsia transform fully desaturates — all three output
channels of every pixel are equal, because the three matrix rows coincide. -/
theorem achromatopsia_output_desaturated (p : Color) :
    (simulate_pixel achromatopsia p).r = (simulate_pixel achromatopsia p).g ∧
      (simulate_pixel achromatopsia p).g = (simulate_pixel achromatopsia p).b :=
  ⟨rfl, rfl⟩

/-- Claim C9: `simulate_colorblindness` signals `ValueError` exactly when
`cvd_type` is not one of the eight keys of `TRANSFORMATIONS`, and in that case
the result is the same whatever the image loading would have produced — the
error is raised before the image is touched, so no output image exists. -/
theorem simulate_colorblindness_valueerror_iff (cvd_type : String)
    (load : Option (List Color)) :
    ((simulate_colorblindness cvd_type load).isOk = false ↔ cvd_type ∉ cvd_keys) ∧
      ((simulate_colorblindness cvd_type load).isOk = false →
        simulate_colorblindness cvd_type load
          = Except.error ("Unknown CVD type: " ++ cvd_type)) := by
  unfold simulate_colorblindness
  cases hfind : TRANSFORMATIONS.find? (fun kt => kt.1 == cvd_type) with
  | none =>
    have hnotmem : cvd_type ∉ cvd_keys := by
      intro hmem
      obtain ⟨kt, hkt, hfst⟩ := List.mem_map.mp hmem
      have := List.find?_eq_none.mp hfind kt hkt
      rw [hfst] at this
      exact this (beq_self_eq_true cvd_type)
    exact ⟨iff_of_true rfl hnotmem, fun _ => rfl⟩
  | some kt =>
    have hmem : cvd_type ∈ cvd_keys := by
      have hp := List.find?_some hfind
      have hin := List.mem_of_find?_eq_some hfind
      rw [beq_iff_eq] at hp
      exact hp ▸ List.mem_map.mpr ⟨kt, hin, rfl⟩
    exact ⟨iff_of_false (fun habs => Bool.noConfusion habs) (fun hn => hn hmem),
      fun habs => Bool.noConfusion habs⟩

/-- Witness for `simulate_colorblindness_valueerror_iff`: an unknown variant
name is rejected. -/
theorem simulate_colorblindness_valueerror_iff_witness :
    (simulate_colorblindness "monochromacy" none).isOk = false :=
  ((simulate_colorblindness_valueerror_iff "monochromacy" none).1).mpr (by decide)

end ColorBlindSimulator

